import Mathlib

/-!
# The video widget of the twitch player

A shallow embedding of `src/player/src/ui/widgets/video_widget.cpp`: the
widget's own fields are a record, every call it makes on a collaborator
(media engine, overlays, settings, catalog client) is appended to a log in
program order, and every handler the constructor connects is a function on
that record.  Machine `int` arithmetic that can leave the 32-bit range is
written with `wrapInt32`.
-/

namespace TwitchPlayer

/-! ## Machine integers, points, sizes -/

/-- The value a 32-bit two's complement `int` holds for the mathematical result `x`. -/
def wrapInt32 (x : Int) : Int :=
  (x + 2147483648) % 4294967296 - 2147483648

/-- Whether `x` is a value of a 32-bit `int`. -/
def fits_int (x : Int) : Bool :=
  decide (-2147483648 ≤ x ∧ x ≤ 2147483647)

/-- Qt's `QPoint`: a pair of `int` coordinates. -/
structure QPoint where
  x : Int
  y : Int
deriving DecidableEq, Repr

/-- The `QPoint` operator `+`: coordinate-wise `int` addition. -/
instance : Add QPoint := ⟨fun a b => ⟨wrapInt32 (a.x + b.x), wrapInt32 (a.y + b.y)⟩⟩

/-- The `QPoint` operator `-`: coordinate-wise `int` subtraction. -/
instance : Sub QPoint := ⟨fun a b => ⟨wrapInt32 (a.x - b.x), wrapInt32 (a.y - b.y)⟩⟩

/-- Qt's `QSize`. -/
structure QSize where
  width : Int
  height : Int
deriving DecidableEq, Repr

/-! ## `QTimer`

The retry timer is a Qt object; its documented behaviour is modelled with
explicit timestamps (milliseconds): a running timer remembers when it was
last started and with which timeout. -/

/-- The registration of a running timer: start time and timeout. -/
structure Running where
  started : Int
  msec : Int
deriving DecidableEq, Repr

/-- The state of a `QTimer`: `inter` is the `interval` property (an `int`),
`single` the `singleShot` property, `id` the running registration if any. -/
structure QTimer where
  inter : Int
  single : Bool
  id : Option Running
deriving DecidableEq, Repr

namespace QTimer

/-- A freshly constructed `QTimer(parent)`: interval 0, repeating, not running. -/
def fresh : QTimer := ⟨0, false, none⟩

/-- The `isActive()` query. -/
def isActive (t : QTimer) : Bool := t.id.isSome

/-- The `interval()` query. -/
def interval (t : QTimer) : Int := t.inter

/-- The `setSingleShot(b)` call. -/
def setSingleShot (b : Bool) (t : QTimer) : QTimer := { t with single := b }

/-- The `stop()` call. -/
def stop (t : QTimer) : QTimer := { t with id := none }

/-- The `start()` call at time `now`: "Starts or restarts the timer with the
timeout specified in interval. If the timer is already running, it will be
stopped and restarted." -/
def start (now : Int) (t : QTimer) : QTimer :=
  { t.stop with id := some ⟨now, t.inter⟩ }

/-- The `setInterval(msec)` call at time `now`: stores the interval; a
running timer is killed and registered again with the new timeout. -/
def setInterval (now msec : Int) (t : QTimer) : QTimer :=
  if t.isActive then { t with inter := msec, id := some ⟨now, msec⟩ }
  else { t with inter := msec }

/-- The nominal time of the next `timeout` signal: start time plus timeout
for a running timer (a negative timeout is never registered by the event
loop, so such a timer does not fire). -/
def fires_at (t : QTimer) : Option Int :=
  match t.id with
  | some r => if 0 ≤ r.msec then some (r.started + r.msec) else none
  | none => none

end QTimer

/-! ## Playback events -/

/-- The values of a C++ `float` as far as its comparison operators can tell
them apart: a finite value (a rational), the two infinities, or a NaN. -/
inductive CFloat where
  | finite (q : ℚ)
  | pos_inf
  | neg_inf
  | nan
deriving DecidableEq

namespace CFloat

/-- The `!=` operator on floats: a NaN differs from everything, itself included. -/
def ne : CFloat → CFloat → Bool
  | nan, _ => true
  | _, nan => true
  | finite a, finite b => decide (a ≠ b)
  | pos_inf, pos_inf => false
  | neg_inf, neg_inf => false
  | _, _ => true

/-- The `<` operator on floats: false as soon as one side is a NaN. -/
def lt : CFloat → CFloat → Bool
  | nan, _ => false
  | _, nan => false
  | finite a, finite b => decide (a < b)
  | neg_inf, finite _ => true
  | neg_inf, pos_inf => true
  | finite _, pos_inf => true
  | _, _ => false

/-- The literal `100.f`. -/
def hundred : CFloat := finite 100

end CFloat

/-- The variant `libvlc::events` delivered by `VLCEventWatcher::new_event`.
The five alternatives the widget matches on are named as in the source;
`Playing` and `Other` stand for the alternatives that reach the `auto` arm. -/
inductive Event where
  | Opening
  | Buffering (cache_percent : CFloat)
  | EndReached
  | Stopped
  | EncounteredError
  | Playing
  | Other (tag : Nat)
deriving DecidableEq

/-- The terminal playback events: `EndReached`, `Stopped`, `EncounteredError`. -/
def Event.terminal : Event → Bool
  | .EndReached => true
  | .Stopped => true
  | .EncounteredError => true
  | _ => false

/-! ## The catalog -/

/-- The part of `MediaInfo` the widget reads. -/
structure MediaInfo where
  name : String
deriving DecidableEq, Repr

/-- The part of a playlist entry the widget reads. -/
structure PlaylistInfo where
  media_info : MediaInfo
deriving DecidableEq, Repr

/-- The part of `StreamIndex` the widget reads. -/
structure StreamIndex where
  playlist_infos : List PlaylistInfo
deriving DecidableEq, Repr

/-- Source: `quality_names`, the names of the index's playlists in order. -/
def quality_names (index : StreamIndex) : List String :=
  index.playlist_infos.map fun pl_info => pl_info.media_info.name

/-- Modelled from the spec: `TwitchdAPI::playback_url` is not among the
sources; the location it resolves is kept symbolic, as the pair (channel,
quality) it is constructed from. -/
structure Location where
  channel : String
  quality : String
deriving DecidableEq, Repr

/-- Modelled from the spec: the location resolved "from (channel, quality)
via the Stream Catalog Client's URL-resolution rule". -/
def TwitchdAPI.playback_url (channel quality : String) : Location :=
  ⟨channel, quality⟩

/-- A `stream_index(channel)` request in flight, with what its continuation
captured by value: the `quality` argument of the `play` call that made it. -/
structure Fetch where
  channel : String
  quality : String
deriving DecidableEq, Repr

/-! ## Calls on the collaborators -/

/-- One call the widget makes on a collaborator (or on its own `QWidget`
base), with the arguments it passes. -/
inductive Effect where
  | installEventFilter
  | setAttribute_OpaquePaintEvent
  | setFocusPolicy_WheelFocus
  | setMinimumSize (w h : Int)
  | setMouseTracking (flag : Bool)
  | setFocus
  | activateWindow
  | base_wheelEvent
  | media_player_set_renderer
  | media_player_set_volume (volume : Int)
  | media_emplace (location : Location)
  | media_player_set_media
  | media_player_play
  | details_set_buffering (flag : Bool)
  | details_set_channel (channel : String)
  | details_show
  | details_show_state (text : String)
  | details_resize (size : QSize)
  | details_move (p : QPoint)
  | controls_set_volume (volume : Int)
  | controls_set_muted (muted : Bool)
  | controls_clear_qualities
  | controls_set_qualities (quality : String) (qualities : List String)
  | controls_resize (w h : Int)
  | controls_move (p : QPoint)
  | api_stream_index (channel : String)
  | settings_setValue_last_quality (channel quality : String)
deriving DecidableEq

/-- The geometry `update_overlay_position` reads from Qt: `window` is the
screen position of the host window (of its content origin), `offset` is the
position of the widget's top-left corner inside that window (the `pos()` of
the widget and of its ancestors below the window, added up), `pos` is the
widget's own `pos()`, `size` is `size()`, and `controls_height` is
`_controls->height()`. -/
structure Geometry where
  window : QPoint
  offset : QPoint
  pos : QPoint
  size : QSize
  controls_height : Int
deriving DecidableEq, Repr

/-- Qt's `mapToGlobal`: a point in widget coordinates is translated by the
widget's position inside the window and by the window's screen position. -/
def Geometry.mapToGlobal (g : Geometry) (p : QPoint) : QPoint := g.window + g.offset + p

/-- The geometry is made of `int` values and none of the coordinate sums
`update_overlay_position` forms leaves the `int` range. -/
def Geometry.no_overflow (g : Geometry) : Bool :=
  fits_int g.window.x && fits_int g.window.y && fits_int g.offset.x && fits_int g.offset.y &&
  fits_int g.pos.x && fits_int g.pos.y && fits_int g.size.width && fits_int g.size.height &&
  fits_int g.controls_height &&
  fits_int (g.window.x + g.offset.x) && fits_int (g.window.y + g.offset.y) &&
  fits_int (g.window.x + g.offset.x + g.pos.x) &&
  fits_int (g.window.y + g.offset.y + g.pos.y) &&
  fits_int (g.window.y + g.offset.y + g.size.height) &&
  fits_int (g.window.y + g.offset.y + g.size.height - g.controls_height)

/-! ## The widget -/

/-- The fields of `VideoWidget` the handlers read and write, the catalog
requests whose continuation has not run yet (`in_flight`), and the log of
calls made so far, oldest first. -/
structure VideoWidget where
  _current_channel : String
  _current_quality : String
  _vol : Int
  _muted : Bool
  _retry_timer : QTimer
  in_flight : List Fetch
  log : List Effect
deriving DecidableEq

namespace VideoWidget

/-- Appends calls to the log. -/
def emit (es : List Effect) (w : VideoWidget) : VideoWidget :=
  { w with log := w.log ++ es }

/-- Source: `VideoWidget::play`. -/
def play (channel quality : String) (w : VideoWidget) : VideoWidget :=
  let w := { w with _current_channel := channel, _current_quality := quality }
  let location := TwitchdAPI.playback_url channel quality
  let w := w.emit [.media_emplace location, .media_player_set_media, .media_player_play]
  let w := w.emit [.details_set_channel channel, .controls_clear_qualities]
  let w := { w.emit [.api_stream_index channel] with
    in_flight := w.in_flight ++ [Fetch.mk channel quality] }
  let w := w.emit [.details_show]
  if quality.isEmpty then w
  else w.emit [.settings_setValue_last_quality channel quality]

/-- Source: the continuation `play` attaches to `_api.stream_index(channel)`,
run at time `now` with the fetched `index` for the request `f`. -/
def stream_index_then (now : Int) (f : Fetch) (index : StreamIndex) (w : VideoWidget) :
    VideoWidget :=
  let qualities := quality_names index
  let w := { w with in_flight := w.in_flight.erase f }
  let w := w.emit [.controls_clear_qualities, .controls_set_qualities f.quality qualities]
  { w with _retry_timer := w._retry_timer.setInterval now 1000 }

/-- Source: `VideoWidget::volume`. -/
def volume (w : VideoWidget) : Int := w._vol

/-- Source: `VideoWidget::set_volume`. -/
def set_volume (volume : Int) (w : VideoWidget) : VideoWidget :=
  let w := { w with _vol := volume }
  w.emit [.media_player_set_volume (if w._muted then 0 else w._vol),
    .controls_set_volume w._vol,
    .details_show_state (toString w._vol ++ " %")]

/-- Source: `VideoWidget::muted`. -/
def muted (w : VideoWidget) : Bool := w._muted

/-- Source: `VideoWidget::set_muted`. -/
def set_muted (muted : Bool) (w : VideoWidget) : VideoWidget :=
  let w := { w with _muted := muted }
  let w := w.set_volume w._vol
  w.emit [.controls_set_muted w._muted,
    .details_show_state (if muted then "Muted" else "Unmuted")]

/-- Source: `VideoWidget::update_overlay_position`, reading the geometry `g`. -/
def update_overlay_position (g : Geometry) (w : VideoWidget) : VideoWidget :=
  let top_left := g.mapToGlobal g.pos - g.pos
  let bottom_left := top_left + ⟨0, g.size.height⟩
  w.emit [.details_resize g.size,
    .details_move top_left,
    .controls_resize g.size.width g.controls_height,
    .controls_move (bottom_left - ⟨0, g.controls_height⟩)]

/-- Source: `VideoWidget::wheelEvent`; `angle_y` is `event->angleDelta().y()`
and `shift` tells whether the Shift modifier is held. -/
def wheelEvent (angle_y : Int) (shift : Bool) (w : VideoWidget) : VideoWidget :=
  let w := w.emit [.setFocus]
  let delta : Int := if shift then 1 else 5
  let new_volume : Int :=
    if angle_y > 0 then min (wrapInt32 (w._vol + delta)) 200
    else max 0 (wrapInt32 (w._vol - delta))
  let w := w.set_volume new_volume
  w.emit [.base_wheelEvent]

/-- Source: the handler connected to `VideoControls::volume_changed`. -/
def on_volume_changed (vol : Int) (w : VideoWidget) : VideoWidget :=
  (w.set_volume vol).emit [.activateWindow]

/-- Source: the handler connected to `VideoControls::muted_changed`. -/
def on_muted_changed (muted : Bool) (w : VideoWidget) : VideoWidget :=
  w.set_muted muted

/-- Source: the handler connected to `VideoControls::quality_changed`. -/
def on_quality_changed (quality : String) (w : VideoWidget) : VideoWidget :=
  (w.play w._current_channel quality).emit [.activateWindow]

/-- Source: the handler connected to the retry timer's `timeout`, run at
time `now`: replay the current selection, then double the interval. -/
def on_retry_timeout (now : Int) (w : VideoWidget) : VideoWidget :=
  let w := w.play w._current_channel w._current_quality
  { w with _retry_timer :=
      w._retry_timer.setInterval now (wrapInt32 (w._retry_timer.interval * 2)) }

/-- Qt's `QTimer::timerEvent` for the retry timer at time `now`: a
single-shot timer is stopped first, then `timeout` is emitted. -/
def retry_timer_fires (now : Int) (w : VideoWidget) : VideoWidget :=
  let w := if w._retry_timer.single then { w with _retry_timer := w._retry_timer.stop } else w
  w.on_retry_timeout now

/-- Source: the handler connected to `VLCEventWatcher::new_event`, run at
time `now`; `set_buffering` and `schedule_refresh` are its two local lambdas. -/
def on_new_event (now : Int) (event : Event) (w : VideoWidget) : VideoWidget :=
  let set_buffering := fun (flag : Bool) => w.emit [.details_set_buffering flag]
  let schedule_refresh := fun (_ : Unit) =>
    { w with _retry_timer := w._retry_timer.start now }
  match event with
  | .Opening => set_buffering true
  | .Buffering cache_percent => set_buffering (cache_percent.ne CFloat.hundred)
  | .EndReached => schedule_refresh ()
  | .Stopped => schedule_refresh ()
  | .EncounteredError => schedule_refresh ()
  | _ => w

/-- Source: the constructor `VideoWidget::VideoWidget`. The header that
initialises `_vol` and `_muted` is not among the sources, so their initial
values are parameters; `g` is the geometry the first overlay placement reads. -/
def VideoWidget (vol0 : Int) (muted0 : Bool) (g : Geometry) : TwitchPlayer.VideoWidget :=
  let w : TwitchPlayer.VideoWidget :=
    { _current_channel := "", _current_quality := "", _vol := vol0, _muted := muted0,
      _retry_timer := QTimer.fresh, in_flight := [], log := [] }
  let w := w.emit [.installEventFilter, .setAttribute_OpaquePaintEvent,
    .setFocusPolicy_WheelFocus, .media_player_set_renderer,
    .media_player_set_volume w._vol]
  let w := w.update_overlay_position g
  let w := w.emit [.setMinimumSize 160 90, .setMouseTracking true,
    .controls_set_volume w._vol]
  let w := { w with _retry_timer := w._retry_timer.setSingleShot true }
  { w with _retry_timer := w._retry_timer.setInterval 0 1000 }

end VideoWidget

/-! ## Reading the log -/

/-- The calls made on the way from the state `w` to the later state `w'`. -/
def calls (w w' : VideoWidget) : List Effect := w'.log.drop w.log.length

/-- The arguments of the `_media_player.set_volume` calls, in order. -/
def media_player_volumes : List Effect → List Int
  | [] => []
  | .media_player_set_volume v :: es => v :: media_player_volumes es
  | _ :: es => media_player_volumes es

/-- The locations opened in the media engine (`_media.emplace`), in order. -/
def opened : List Effect → List Location
  | [] => []
  | .media_emplace l :: es => l :: opened es
  | _ :: es => opened es

/-- The `_details->set_buffering` arguments, in order. -/
def buffering_flags : List Effect → List Bool
  | [] => []
  | .details_set_buffering b :: es => b :: buffering_flags es
  | _ :: es => buffering_flags es

/-- Modelled from the spec: `VideoControls` is not among the sources. What
its quality selector holds after the logged calls: nothing after
`clear_qualities`, the current quality and the list after `set_qualities`. -/
def controls_qualities (log : List Effect) : Option (String × List String) :=
  log.foldl (fun shown e =>
    match e with
    | .controls_clear_qualities => none
    | .controls_set_qualities quality qualities => some (quality, qualities)
    | _ => shown) none

/-! ## Runs of the widget -/

/-- What the event loop can deliver to the widget: the signals and calls its
handlers are connected to. Deliveries that touch the retry timer carry the
time `now` at which they happen. -/
inductive Input where
  | play (channel quality : String)
  | volume_changed (vol : Int)
  | muted_changed (muted : Bool)
  | quality_changed (quality : String)
  | overlay_invalidated (g : Geometry)
  | wheel (angle_y : Int) (shift : Bool)
  | new_event (now : Int) (event : Event)
  | retry_timeout (now : Int)
  | stream_index_fulfilled (now : Int) (f : Fetch) (index : StreamIndex)
deriving DecidableEq

/-- Whether the input is the fulfilment of a catalog fetch. -/
def Input.is_fulfilment : Input → Bool
  | .stream_index_fulfilled _ _ _ => true
  | _ => false

/-- Whether the input is a firing of the retry timer. -/
def Input.is_firing : Input → Bool
  | .retry_timeout _ => true
  | _ => false

/-- The handler that runs for each input. -/
def step (w : VideoWidget) : Input → VideoWidget
  | .play channel quality => w.play channel quality
  | .volume_changed vol => w.on_volume_changed vol
  | .muted_changed muted => w.on_muted_changed muted
  | .quality_changed quality => w.on_quality_changed quality
  | .overlay_invalidated g => w.update_overlay_position g
  | .wheel angle_y shift => w.wheelEvent angle_y shift
  | .new_event now event => w.on_new_event now event
  | .retry_timeout now => w.retry_timer_fires now
  | .stream_index_fulfilled now f index => w.stream_index_then now f index

/-- The state after a sequence of inputs, handled in order. -/
def run (w : VideoWidget) (inputs : List Input) : VideoWidget := inputs.foldl step w

/-- The number of firings of the retry timer among the inputs. -/
def firings (inputs : List Input) : Nat := inputs.countP Input.is_firing

/-- An outage of `rounds` reconnect attempts: from time `t` on, with the
timer's interval at `i`, a `Stopped` event arrives, the timer fires `i` ms
later, and the replay stops again at once. -/
def outage : Nat → Int → Int → List Input
  | 0, _, _ => []
  | rounds + 1, t, i =>
    .new_event t .Stopped :: .retry_timeout (t + i) :: outage rounds (t + i) (i * 2)

/-- The interval after `k` doublings in `int` arithmetic, starting from `i`. -/
def doubled : Nat → Int → Int
  | 0, i => i
  | k + 1, i => wrapInt32 (doubled k i * 2)

/-- A sample geometry: window at (100,100) on screen, the surface at the
window's origin, 800x450, controls overlay 40 high. -/
def sample_geometry : Geometry := ⟨⟨100, 100⟩, ⟨0, 0⟩, ⟨0, 0⟩, ⟨800, 450⟩, 40⟩

/-- The same window with the surface inset by one pixel each way, as a
container with a one-pixel border lays it out. -/
def inset_geometry : Geometry := ⟨⟨100, 100⟩, ⟨1, 1⟩, ⟨1, 1⟩, ⟨800, 450⟩, 40⟩

/-- A window so far down the screen coordinates that the bottom edge of the
surface is past the largest `int`. -/
def far_geometry : Geometry := ⟨⟨100, 2147483600⟩, ⟨0, 0⟩, ⟨0, 0⟩, ⟨800, 450⟩, 40⟩

/-- A freshly constructed widget at level 100, not muted. -/
def fresh_widget : VideoWidget := VideoWidget.VideoWidget 100 false sample_geometry

/-! ## Basic facts -/

theorem calls_emit (w : VideoWidget) (es : List Effect) : calls w (w.emit es) = es := by
  simp [calls, VideoWidget.emit]

theorem calls_append (w w' : VideoWidget) (es : List Effect) (h : w'.log = w.log ++ es) :
    calls w w' = es := by
  simp [calls, h]

theorem set_volume_log (v : Int) (w : VideoWidget) :
    (w.set_volume v).log = w.log ++
      [.media_player_set_volume (if w._muted then 0 else v), .controls_set_volume v,
       .details_show_state (toString v ++ " %")] := by
  simp [VideoWidget.set_volume, VideoWidget.emit]

theorem set_volume_fields (v : Int) (w : VideoWidget) :
    (w.set_volume v)._vol = v ∧ (w.set_volume v)._muted = w._muted ∧
    (w.set_volume v)._retry_timer = w._retry_timer ∧
    (w.set_volume v)._current_channel = w._current_channel ∧
    (w.set_volume v)._current_quality = w._current_quality ∧
    (w.set_volume v).in_flight = w.in_flight := by
  simp [VideoWidget.set_volume, VideoWidget.emit]

/-- The calls `set_muted` makes. -/
theorem set_muted_log (m : Bool) (w : VideoWidget) :
    (w.set_muted m).log = w.log ++
      [.media_player_set_volume (if m then 0 else w._vol), .controls_set_volume w._vol,
       .details_show_state (toString w._vol ++ " %"), .controls_set_muted m,
       .details_show_state (if m then "Muted" else "Unmuted")] := by
  simp [VideoWidget.set_muted, VideoWidget.set_volume, VideoWidget.emit]

/-- The fields `set_muted` leaves alone, and the one it writes. -/
theorem set_muted_fields (m : Bool) (w : VideoWidget) :
    (w.set_muted m)._vol = w._vol ∧ (w.set_muted m)._muted = m ∧
    (w.set_muted m)._retry_timer = w._retry_timer := by
  simp [VideoWidget.set_muted, VideoWidget.set_volume, VideoWidget.emit]

/-- Any number of `set_volume` calls keeps the mute flag. -/
theorem set_volumes_muted (vs : List Int) (w : VideoWidget) :
    (vs.foldl (fun s u => s.set_volume u) w)._muted = w._muted := by
  induction vs generalizing w with
  | nil => rfl
  | cons v vs ih => simp [List.foldl, ih, (set_volume_fields v w).2.1]

/-! ## Volume and mute (C1, C9, C10) -/

/-- C1, as stated, fails: `set_volume` does not clamp. On a freshly
constructed, unmuted widget `set_volume(300)` passes 300 to
`_media_player.set_volume` and stores 300, and `set_volume(-5)` passes -5. -/
theorem set_volume_passes_300 :
    media_player_volumes (calls fresh_widget (fresh_widget.set_volume 300)) = [300] ∧
    ¬ (300 : Int) ≤ 200 ∧
    (fresh_widget.set_volume 300).volume = 300 ∧
    media_player_volumes (calls fresh_widget (fresh_widget.set_volume (-5))) = [-5] := by
  decide

/-- C1, amended: for every integer `v` and every state, `set_volume(v)`
stores `v` unchanged and makes exactly one `_media_player.set_volume` call,
with argument 0 when muted and `v` itself otherwise; that argument is in
0..200 exactly when the widget is muted or `v` already is in 0..200. -/
theorem set_volume_applies (v : Int) (w : VideoWidget) :
    (w.set_volume v).volume = v ∧
    media_player_volumes (calls w (w.set_volume v)) = [if w.muted then 0 else v] ∧
    ((∀ a ∈ media_player_volumes (calls w (w.set_volume v)), 0 ≤ a ∧ a ≤ 200) ↔
      (w.muted = true ∨ (0 ≤ v ∧ v ≤ 200))) := by
  have hc := calls_append w (w.set_volume v) _ (set_volume_log v w)
  refine ⟨(set_volume_fields v w).1, ?_, ?_⟩
  · rw [hc]; simp [media_player_volumes, VideoWidget.muted]
  · rw [hc]
    cases hm : w._muted <;> simp [media_player_volumes, VideoWidget.muted, hm]

/-- C9: muting wins over the stored level and keeps it. After
`set_muted(true)`, and after any further `set_volume` calls, `set_volume(v)`
passes 0 to the engine while `volume()` returns `v`; and `set_muted(true)`
followed by `set_muted(false)` leaves the stored level as it was and passes
exactly that level to the engine. -/
theorem muted_wins_level_kept (w : VideoWidget) (vs : List Int) (v : Int) :
    (let w1 := vs.foldl (fun s u => s.set_volume u) (w.set_muted true)
     media_player_volumes (calls w1 (w1.set_volume v)) = [0] ∧
     (w1.set_volume v).volume = v ∧ (w1.set_volume v).muted = true) ∧
    (let w2 := w.set_muted true
     media_player_volumes (calls w w2) = [0] ∧ w2.volume = w.volume ∧
     (w2.set_muted false).volume = w.volume ∧ (w2.set_muted false).muted = false ∧
     media_player_volumes (calls w2 (w2.set_muted false)) = [w.volume]) := by
  have hm : (vs.foldl (fun s u => s.set_volume u) (w.set_muted true))._muted = true := by
    rw [set_volumes_muted]; exact (set_muted_fields true w).2.1
  refine ⟨⟨?_, ?_, ?_⟩, ?_, ?_, ?_, ?_, ?_⟩
  · rw [calls_append _ _ _ (set_volume_log v _)]
    simp [media_player_volumes, hm]
  · exact (set_volume_fields v _).1
  · simp only [VideoWidget.muted]; rw [(set_volume_fields v _).2.1]; exact hm
  · rw [calls_append _ _ _ (set_muted_log true w)]
    simp [media_player_volumes]
  · exact (set_muted_fields true w).1
  · simp only [VideoWidget.volume]
    rw [(set_muted_fields false _).1, (set_muted_fields true w).1]
  · exact (set_muted_fields false _).2.1
  · rw [calls_append _ _ _ (set_muted_log false _)]
    simp [media_player_volumes, VideoWidget.volume, (set_muted_fields true w).1]

/-- The level `wheelEvent` stores and the calls it makes. -/
theorem wheelEvent_log (angle_y : Int) (shift : Bool) (w : VideoWidget) :
    (w.wheelEvent angle_y shift).log = w.log ++ (Effect.setFocus ::
      (calls w (w.set_volume (w.wheelEvent angle_y shift)._vol) ++ [Effect.base_wheelEvent])) := by
  rw [calls_append _ _ _ (set_volume_log _ w)]
  simp [VideoWidget.wheelEvent, VideoWidget.set_volume, VideoWidget.emit]

/-- C10: the mouse wheel keeps the stored volume in range. For a stored
level in 0..200, `wheelEvent` stores `min(vol + d, 200)` when the vertical
angle delta is positive and `max(0, vol - d)` otherwise (a delta of 0
included), with `d = 1` under Shift and `d = 5` otherwise; the new level is
again in 0..200, differs from the old one by at most `d`, and is the level
handed to `set_volume`. -/
theorem wheelEvent_in_range (w : VideoWidget) (angle_y : Int) (shift : Bool)
    (hlo : 0 ≤ w.volume) (hhi : w.volume ≤ 200) :
    (w.wheelEvent angle_y shift).volume =
      (if angle_y > 0 then min (w.volume + (if shift then 1 else 5)) 200
       else max 0 (w.volume - (if shift then 1 else 5))) ∧
    0 ≤ (w.wheelEvent angle_y shift).volume ∧ (w.wheelEvent angle_y shift).volume ≤ 200 ∧
    |(w.wheelEvent angle_y shift).volume - w.volume| ≤ (if shift then 1 else 5) ∧
    media_player_volumes (calls w (w.wheelEvent angle_y shift)) =
      [if w.muted then 0 else (w.wheelEvent angle_y shift).volume] := by
  have hlog := wheelEvent_log angle_y shift w
  have hvol : (w.wheelEvent angle_y shift)._vol =
      (if angle_y > 0 then min (w._vol + (if shift then 1 else 5)) 200
       else max 0 (w._vol - (if shift then 1 else 5))) := by
    simp only [VideoWidget.volume] at hlo hhi
    have h1 : wrapInt32 (w._vol + (if shift then 1 else 5)) = w._vol + (if shift then 1 else 5) := by
      unfold wrapInt32; cases shift <;> simp <;> omega
    have h2 : wrapInt32 (w._vol - (if shift then 1 else 5)) = w._vol - (if shift then 1 else 5) := by
      unfold wrapInt32; cases shift <;> simp <;> omega
    simp [VideoWidget.wheelEvent, VideoWidget.set_volume, VideoWidget.emit, h1, h2]
  simp only [VideoWidget.volume] at hlo hhi ⊢
  refine ⟨hvol, ?_, ?_, ?_, ?_⟩
  · rw [hvol]; cases shift <;> split_ifs <;> simp <;> omega
  · rw [hvol]; cases shift <;> split_ifs <;> simp <;> omega
  · rw [hvol, abs_le]; cases shift <;> split_ifs <;> simp <;> omega
  · rw [calls_append _ _ _ hlog, calls_append _ _ _ (set_volume_log _ w)]
    simp [media_player_volumes, VideoWidget.muted]

/-- C10 at a concrete input: at level 100 (in range), wheel up without
Shift stores 105 and hands 105 to the engine. -/
theorem wheelEvent_in_range_at_100 :
    (0 ≤ fresh_widget.volume ∧ fresh_widget.volume ≤ 200) ∧
    (fresh_widget.wheelEvent 120 false).volume = 105 ∧
    media_player_volumes (calls fresh_widget (fresh_widget.wheelEvent 120 false)) = [105] := by
  have h := wheelEvent_in_range fresh_widget 120 false (by decide) (by decide)
  refine ⟨by decide, ?_, ?_⟩
  · rw [h.1]; decide
  · rw [h.2.2.2.2, h.1]; decide

/-! ## Overlay placement (C7) -/

/-- C7, as stated, fails: the overlays are not placed at the window's screen
position but at the surface's own corner. With the window at (100,100) and
the 800x450 surface inset by (1,1), the details overlay is moved to (101,101)
and the controls overlay to (101,511), not to (100,100) and (100,510). And
the claimed `y + h - c` is not what an `int` holds for every position: with
the window at y = 2147483600 the sum with the surface height 450 leaves the
`int` range, and the controls overlay is not moved to y = 2147484010. -/
theorem overlay_not_at_window_position :
    inset_geometry.window = ⟨100, 100⟩ ∧
    calls fresh_widget (fresh_widget.update_overlay_position inset_geometry) =
      [.details_resize ⟨800, 450⟩, .details_move ⟨101, 101⟩,
       .controls_resize 800 40, .controls_move ⟨101, 511⟩] ∧
    Effect.details_move ⟨101, 101⟩ ≠ Effect.details_move inset_geometry.window ∧
    Effect.controls_move ⟨101, 511⟩ ≠ Effect.controls_move ⟨100, 100 + 450 - 40⟩ ∧
    calls fresh_widget (fresh_widget.update_overlay_position far_geometry) =
      [.details_resize ⟨800, 450⟩, .details_move ⟨100, 2147483600⟩,
       .controls_resize 800 40, .controls_move ⟨100, -2147483286⟩] ∧
    Effect.controls_move ⟨100, -2147483286⟩ ≠
      Effect.controls_move ⟨100, 2147483600 + 450 - 40⟩ := by
  decide

/-- C7, amended: for every window screen position `(wx, wy)`, every offset
`(ox, oy)` of the surface's top-left corner inside the window, every `pos()`,
every surface size `width x h` and every controls height `c`, as long as
these are `int` values and the coordinate sums stay in the `int` range:
`update_overlay_position` resizes the details overlay to `width x h` and
moves it to the surface's screen corner `(x, y) = (wx + ox, wy + oy)`,
resizes the controls overlay to width `width` with its height `c` unchanged
and moves it to `(x, y + h - c)`; it makes no other call and changes no
field. The corner is the window position itself when the offset is (0, 0). -/
theorem update_overlay_position_places (w : VideoWidget)
    (wx wy ox oy px py width h c : Int)
    (hfit : (Geometry.mk ⟨wx, wy⟩ ⟨ox, oy⟩ ⟨px, py⟩ ⟨width, h⟩ c).no_overflow = true) :
    calls w (w.update_overlay_position ⟨⟨wx, wy⟩, ⟨ox, oy⟩, ⟨px, py⟩, ⟨width, h⟩, c⟩) =
      [.details_resize ⟨width, h⟩, .details_move ⟨wx + ox, wy + oy⟩,
       .controls_resize width c, .controls_move ⟨wx + ox, wy + oy + h - c⟩] ∧
    { w.update_overlay_position ⟨⟨wx, wy⟩, ⟨ox, oy⟩, ⟨px, py⟩, ⟨width, h⟩, c⟩
        with log := w.log } = w ∧
    (ox = 0 → oy = 0 →
      calls w (w.update_overlay_position ⟨⟨wx, wy⟩, ⟨ox, oy⟩, ⟨px, py⟩, ⟨width, h⟩, c⟩) =
        [.details_resize ⟨width, h⟩, .details_move ⟨wx, wy⟩,
         .controls_resize width c, .controls_move ⟨wx, wy + h - c⟩]) := by
  have hsub : ∀ a b p q : Int, (⟨a, b⟩ : QPoint) - ⟨p, q⟩ =
      ⟨wrapInt32 (a - p), wrapInt32 (b - q)⟩ := fun _ _ _ _ => rfl
  have hadd : ∀ a b p q : Int, (⟨a, b⟩ : QPoint) + ⟨p, q⟩ =
      ⟨wrapInt32 (a + p), wrapInt32 (b + q)⟩ := fun _ _ _ _ => rfl
  simp only [Geometry.no_overflow, fits_int, Bool.and_eq_true, decide_eq_true_eq] at hfit
  have hcalls : calls w
      (w.update_overlay_position ⟨⟨wx, wy⟩, ⟨ox, oy⟩, ⟨px, py⟩, ⟨width, h⟩, c⟩) =
      [.details_resize ⟨width, h⟩, .details_move ⟨wx + ox, wy + oy⟩,
       .controls_resize width c, .controls_move ⟨wx + ox, wy + oy + h - c⟩] := by
    have ex : wrapInt32 (wrapInt32 (wrapInt32 (wx + ox) + px) - px) = wx + ox := by
      unfold wrapInt32; omega
    have ey : wrapInt32 (wrapInt32 (wrapInt32 (wy + oy) + py) - py) = wy + oy := by
      unfold wrapInt32; omega
    have ex0 : wrapInt32 (wrapInt32 (wx + ox + 0) - 0) = wx + ox := by
      unfold wrapInt32; omega
    have eyh : wrapInt32 (wrapInt32 (wy + oy + h) - c) = wy + oy + h - c := by
      unfold wrapInt32; omega
    simp only [VideoWidget.update_overlay_position, calls_emit, Geometry.mapToGlobal, hsub,
      hadd, ex, ey, ex0, eyh]
  refine ⟨hcalls, ?_, ?_⟩
  · simp [VideoWidget.update_overlay_position, VideoWidget.emit]
  · intro hx hy
    rw [hcalls]
    subst hx hy
    simp

/-- C7, amended, at the scenario of the specification: window at (100,100),
surface at the window's origin, 800x450, controls 40 high: details at
(100,100) sized 800x450, controls 800 wide at (100,510). -/
theorem update_overlay_position_places_sample :
    sample_geometry.no_overflow = true ∧
    calls fresh_widget (fresh_widget.update_overlay_position sample_geometry) =
      [.details_resize ⟨800, 450⟩, .details_move ⟨100, 100⟩,
       .controls_resize 800 40, .controls_move ⟨100, 510⟩] := by
  refine ⟨by decide, ?_⟩
  exact (update_overlay_position_places fresh_widget 100 100 0 0 0 0 800 450 40
    (by decide)).1

/-! ## Playback events (C8) -/

/-- The float comparison behind the `Buffering` arm: a value below 100
differs from 100, and 100 itself does not. -/
theorem CFloat.lt_hundred_ne (p : CFloat) (h : p.lt CFloat.hundred = true) :
    p.ne CFloat.hundred = true := by
  cases p <;> simp_all [CFloat.lt, CFloat.ne, CFloat.hundred]
  exact ne_of_lt h

/-- C8: the event handler runs one arm, chosen by the variant. `Opening`
calls `set_buffering(true)`; `Buffering` with a percentage below 100 calls
`set_buffering(true)` and with exactly 100 calls `set_buffering(false)`;
`EndReached`, `Stopped` and `EncounteredError` start the retry timer and make
no call (the buffering flag is not touched); every other variant (`Playing`,
any other) leaves the whole state as it was. The buffering arms leave the
retry timer as it was. -/
theorem on_new_event_dispatch (w : VideoWidget) (now : Int) :
    w.on_new_event now .Opening = w.emit [.details_set_buffering true] ∧
    (∀ p : CFloat, p.lt CFloat.hundred = true →
      w.on_new_event now (.Buffering p) = w.emit [.details_set_buffering true]) ∧
    w.on_new_event now (.Buffering (.finite 100)) = w.emit [.details_set_buffering false] ∧
    (∀ e : Event, e.terminal = true →
      w.on_new_event now e = { w with _retry_timer := w._retry_timer.start now } ∧
      (w.on_new_event now e)._retry_timer.isActive = true ∧
      calls w (w.on_new_event now e) = []) ∧
    w.on_new_event now .Playing = w ∧
    (∀ tag : Nat, w.on_new_event now (.Other tag) = w) ∧
    (w.on_new_event now .Opening)._retry_timer = w._retry_timer ∧
    (∀ p : CFloat, (w.on_new_event now (.Buffering p))._retry_timer = w._retry_timer) := by
  refine ⟨rfl, ?_, ?_, ?_, rfl, fun _ => rfl, rfl, fun _ => rfl⟩
  · intro p hp
    simp [VideoWidget.on_new_event, CFloat.lt_hundred_ne p hp]
  · simp [VideoWidget.on_new_event, CFloat.ne, CFloat.hundred]
  · intro e he
    cases e <;> simp_all [Event.terminal, VideoWidget.on_new_event, QTimer.start,
      QTimer.isActive, QTimer.stop, calls]

/-- C8 at concrete inputs: on the fresh widget, `Buffering(50)` sets the
flag, and `Stopped` at time 7 arms the timer for time 1007. -/
theorem on_new_event_dispatch_sample :
    (CFloat.finite 50).lt CFloat.hundred = true ∧ Event.Stopped.terminal = true ∧
    buffering_flags (calls fresh_widget
      (fresh_widget.on_new_event 7 (.Buffering (.finite 50)))) = [true] ∧
    (fresh_widget.on_new_event 7 .Stopped)._retry_timer.fires_at = some 1007 := by
  have h := on_new_event_dispatch fresh_widget 7
  refine ⟨by decide, by decide, ?_, ?_⟩
  · rw [h.2.1 (.finite 50) (by decide), calls_emit]; rfl
  · rw [(h.2.2.2.1 .Stopped (by decide)).1]; decide

/-! ## The retry timer (C3, C4, C6) -/

/-- A terminal event starts the retry timer at the time it is handled and
changes nothing else. -/
theorem on_new_event_terminal (w : VideoWidget) (now : Int) (e : Event)
    (he : e.terminal = true) :
    w.on_new_event now e =
      { w with _retry_timer := ⟨w._retry_timer.inter, w._retry_timer.single,
          some ⟨now, w._retry_timer.inter⟩⟩ } := by
  cases e <;> simp_all [Event.terminal, VideoWidget.on_new_event, QTimer.start, QTimer.stop]

/-- C3, as stated, fails: a terminal event while the timer is pending
restarts it. On the freshly constructed widget (interval 1000 ms) the first
`Stopped` at t=0 arms the timer for t=1000; the `Stopped` at t=10 moves the
firing time to 1010; after the third at t=20 the timer fires at t=1020, not
at t=1000. -/
theorem stopped_events_move_firing_time :
    (run fresh_widget [.new_event 0 .Stopped])._retry_timer.fires_at = some 1000 ∧
    (run fresh_widget [.new_event 0 .Stopped, .new_event 10 .Stopped])._retry_timer.fires_at
      = some 1010 ∧
    (run fresh_widget [.new_event 0 .Stopped, .new_event 10 .Stopped,
      .new_event 20 .Stopped])._retry_timer.fires_at = some 1020 ∧
    (run fresh_widget [.new_event 0 .Stopped, .new_event 10 .Stopped,
      .new_event 20 .Stopped])._retry_timer.fires_at ≠ some 1000 := by
  decide

/-- C3, amended: a terminal event (`EndReached`, `Stopped` or
`EncounteredError`) handled at time `now` starts the one retry timer again,
whether or not it was pending: afterwards the timer is running, registered at
`now` with the current interval, the interval itself is unchanged, and for a
non-negative interval the firing time is `now + interval`. Concretely, from a
freshly constructed widget (interval 1000 ms), `Stopped` events at t=0, t=10
and t=20 leave one running timer that fires at t=1020. -/
theorem terminal_event_restarts_timer (w : VideoWidget) (now : Int) (e : Event)
    (he : e.terminal = true) :
    (w.on_new_event now e)._retry_timer.id = some ⟨now, w._retry_timer.interval⟩ ∧
    (w.on_new_event now e)._retry_timer.interval = w._retry_timer.interval ∧
    (0 ≤ w._retry_timer.interval →
      (w.on_new_event now e)._retry_timer.fires_at = some (now + w._retry_timer.interval)) ∧
    (∀ (vol0 : Int) (muted0 : Bool) (g : Geometry),
      (run (VideoWidget.VideoWidget vol0 muted0 g) [.new_event 0 .Stopped,
        .new_event 10 .Stopped, .new_event 20 .Stopped])._retry_timer.fires_at
        = some 1020) := by
  rw [on_new_event_terminal w now e he]
  refine ⟨rfl, rfl, ?_, ?_⟩
  · intro h
    simp only [QTimer.interval] at h
    simp [QTimer.fires_at, QTimer.interval, h]
  · intro vol0 muted0 g
    simp [run, step, VideoWidget.on_new_event, QTimer.start, QTimer.stop, QTimer.fires_at,
      VideoWidget.VideoWidget, QTimer.setInterval, QTimer.setSingleShot, QTimer.fresh,
      QTimer.isActive, VideoWidget.emit, VideoWidget.update_overlay_position]

/-- C3, amended, at a concrete input: an `EncounteredError` at t=500 on the
fresh widget while the timer armed at t=0 is pending moves the firing time
to t=1500. -/
theorem terminal_event_restarts_timer_at_500 :
    Event.EncounteredError.terminal = true ∧
    (fresh_widget.on_new_event 0 .Stopped)._retry_timer.fires_at = some 1000 ∧
    ((fresh_widget.on_new_event 0 .Stopped).on_new_event 500
      .EncounteredError)._retry_timer.id = some ⟨500, 1000⟩ := by
  refine ⟨by decide, by decide, ?_⟩
  rw [(terminal_event_restarts_timer (fresh_widget.on_new_event 0 .Stopped) 500
    .EncounteredError (by decide)).1]
  decide

/-- The calls `play` makes, and the fields it writes. -/
theorem play_effect (c q : String) (w : VideoWidget) :
    (w.play c q).log = w.log ++ ([.media_emplace (TwitchdAPI.playback_url c q),
      .media_player_set_media, .media_player_play, .details_set_channel c,
      .controls_clear_qualities, .api_stream_index c, .details_show] ++
      (if q.isEmpty then [] else [.settings_setValue_last_quality c q])) ∧
    (w.play c q)._current_channel = c ∧ (w.play c q)._current_quality = q ∧
    (w.play c q)._retry_timer = w._retry_timer ∧
    (w.play c q).in_flight = w.in_flight ++ [Fetch.mk c q] ∧
    (w.play c q)._vol = w._vol ∧ (w.play c q)._muted = w._muted := by
  cases h : q.isEmpty <;> simp [VideoWidget.play, VideoWidget.emit, h]

/-- A run of terminal events only touches the retry timer, and only its
registration. -/
theorem run_terminal_events (evs : List (Int × Event)) (w : VideoWidget)
    (hterm : ∀ te ∈ evs, te.2.terminal = true) :
    ∃ r : Option Running, run w (evs.map fun te => Input.new_event te.1 te.2) =
      { w with _retry_timer := ⟨w._retry_timer.inter, w._retry_timer.single, r⟩ } := by
  induction evs using List.reverseRecOn with
  | nil => exact ⟨w._retry_timer.id, rfl⟩
  | append_singleton l a ih =>
    obtain ⟨r, hr⟩ := ih (fun te hte => hterm te (by simp [hte]))
    refine ⟨some ⟨a.1, w._retry_timer.inter⟩, ?_⟩
    have ha : a.2.terminal = true := hterm a (by simp)
    simp only [run, List.map_append, List.foldl_append, List.map_cons, List.map_nil,
      List.foldl_cons, List.foldl_nil, step] at hr ⊢
    rw [hr, on_new_event_terminal _ _ _ ha]

/-- Changing the interval keeps the single-shot flag. -/
theorem setInterval_single (now msec : Int) (t : QTimer) :
    (t.setInterval now msec).single = t.single := by
  simp only [QTimer.setInterval]
  split <;> rfl

/-- No handler changes the single-shot flag of the retry timer. -/
theorem step_single (w : VideoWidget) (i : Input) :
    (step w i)._retry_timer.single = w._retry_timer.single := by
  cases i with
  | play c q => exact congrArg QTimer.single (play_effect c q w).2.2.2.1
  | volume_changed v =>
    simp [step, VideoWidget.on_volume_changed, VideoWidget.set_volume, VideoWidget.emit]
  | muted_changed m =>
    simp [step, VideoWidget.on_muted_changed, VideoWidget.set_muted, VideoWidget.set_volume,
      VideoWidget.emit]
  | quality_changed q =>
    simp only [step, VideoWidget.on_quality_changed, VideoWidget.emit]
    exact congrArg QTimer.single (play_effect _ q w).2.2.2.1
  | overlay_invalidated g =>
    simp [step, VideoWidget.update_overlay_position, VideoWidget.emit]
  | wheel a sh =>
    simp [step, VideoWidget.wheelEvent, VideoWidget.set_volume, VideoWidget.emit]
  | new_event now e =>
    cases e <;> simp [step, VideoWidget.on_new_event, VideoWidget.emit, QTimer.start,
      QTimer.stop]
  | retry_timeout now =>
    have hp : ∀ u : VideoWidget, (u.on_retry_timeout now)._retry_timer.single =
        u._retry_timer.single := by
      intro u
      have h := (play_effect u._current_channel u._current_quality u).2.2.2.1
      simp only [VideoWidget.on_retry_timeout, setInterval_single, h]
    simp only [step, VideoWidget.retry_timer_fires]
    rw [hp]
    split <;> rfl
  | stream_index_fulfilled now f index =>
    simp only [step, VideoWidget.stream_index_then, setInterval_single, VideoWidget.emit]

/-- In every state reachable from the constructor the retry timer is
single-shot. -/
theorem reachable_single_shot (vol0 : Int) (muted0 : Bool) (g : Geometry)
    (inputs : List Input) :
    (run (VideoWidget.VideoWidget vol0 muted0 g) inputs)._retry_timer.single = true := by
  have h : ∀ (l : List Input) (w : VideoWidget),
      (run w l)._retry_timer.single = w._retry_timer.single := by
    intro l
    induction l with
    | nil => intro w; rfl
    | cons i rest ih =>
      intro w
      simp only [run, List.foldl_cons] at ih ⊢
      rw [ih, step_single]
  rw [h]
  simp [VideoWidget.VideoWidget, QTimer.setInterval, QTimer.setSingleShot, QTimer.fresh,
    QTimer.isActive, VideoWidget.emit, VideoWidget.update_overlay_position]

/-- C4: for every non-empty sequence of terminal events (any mix of
`EndReached`, `Stopped`, `EncounteredError`, at any times) delivered to a
widget whose retry timer is single-shot (as it is in every reachable state),
idle or not, with no firing in between:
afterwards the timer is pending, registered once at the time of the last
event, and no call has been made (no replay yet). When the timer then fires,
the handler makes exactly the calls of one `play(_current_channel,
_current_quality)` for the selection the widget had all along: one location
opened, one `_media_player.play()`; afterwards the timer is idle again and
the selection is unchanged. -/
theorem terminal_burst_one_replay (w : VideoWidget) (evs : List (Int × Event)) (now : Int)
    (hsingle : w._retry_timer.single = true)
    (hne : evs ≠ []) (hterm : ∀ te ∈ evs, te.2.terminal = true) :
    (run w (evs.map fun te => Input.new_event te.1 te.2))._retry_timer.id =
      some ⟨(evs.getLast hne).1, w._retry_timer.interval⟩ ∧
    calls w (run w (evs.map fun te => Input.new_event te.1 te.2)) = [] ∧
    calls (run w (evs.map fun te => Input.new_event te.1 te.2))
        ((run w (evs.map fun te => Input.new_event te.1 te.2)).retry_timer_fires now) =
      calls w (w.play w._current_channel w._current_quality) ∧
    opened (calls (run w (evs.map fun te => Input.new_event te.1 te.2))
        ((run w (evs.map fun te => Input.new_event te.1 te.2)).retry_timer_fires now)) =
      [TwitchdAPI.playback_url w._current_channel w._current_quality] ∧
    (calls (run w (evs.map fun te => Input.new_event te.1 te.2))
        ((run w (evs.map fun te => Input.new_event te.1 te.2)).retry_timer_fires now)).count
      .media_player_play = 1 ∧
    ((run w (evs.map fun te => Input.new_event te.1 te.2)).retry_timer_fires
      now)._retry_timer.isActive = false ∧
    ((run w (evs.map fun te => Input.new_event te.1 te.2)).retry_timer_fires
      now)._current_channel = w._current_channel ∧
    ((run w (evs.map fun te => Input.new_event te.1 te.2)).retry_timer_fires
      now)._current_quality = w._current_quality := by
  obtain ⟨l, a, rfl⟩ : ∃ l a, evs = l ++ [a] := by
    rcases List.eq_nil_or_concat evs with h | ⟨l, a, h⟩
    · exact absurd h hne
    · exact ⟨l, a, by rw [h, List.concat_eq_append]⟩
  obtain ⟨r, hr⟩ := run_terminal_events l w (fun te hte => hterm te (by simp [hte]))
  have ha : a.2.terminal = true := hterm a (by simp)
  have hrun : run w ((l ++ [a]).map fun te => Input.new_event te.1 te.2) =
      { w with _retry_timer := ⟨w._retry_timer.inter, w._retry_timer.single,
          some ⟨a.1, w._retry_timer.inter⟩⟩ } := by
    simp only [run, List.map_append, List.foldl_append, List.map_cons, List.map_nil,
      List.foldl_cons, List.foldl_nil, step] at hr ⊢
    rw [hr, on_new_event_terminal _ _ _ ha]
  rw [hrun]
  have hp := play_effect w._current_channel w._current_quality w
  have hfire : ({ w with _retry_timer := ⟨w._retry_timer.inter, w._retry_timer.single,
      some ⟨a.1, w._retry_timer.inter⟩⟩ } : VideoWidget).retry_timer_fires now =
      { w.play w._current_channel w._current_quality with
        _retry_timer := ⟨wrapInt32 (w._retry_timer.inter * 2), true, none⟩ } := by
    cases hq : w._current_quality.isEmpty <;>
      simp [VideoWidget.retry_timer_fires, VideoWidget.on_retry_timeout, hsingle, QTimer.stop,
        QTimer.setInterval, QTimer.isActive, QTimer.interval, VideoWidget.play,
        VideoWidget.emit, hq]
  rw [hfire]
  refine ⟨by simp [QTimer.interval], by simp [calls], ?_, ?_, ?_, rfl, hp.2.1, hp.2.2.1⟩
  · simp [calls]
  · simp only [calls]
    rw [hp.1]
    cases hq : w._current_quality.isEmpty <;> simp [opened]
  · simp only [calls]
    rw [hp.1]
    cases hq : w._current_quality.isEmpty <;> simp [List.count_cons]

/-- C4 at a concrete input: after `play("a", "high")`, `Stopped` at t=0 and
`EncounteredError` at t=10 leave one pending timer, and its firing replays
("a", "high") once. -/
theorem terminal_burst_one_replay_sample :
    (fresh_widget.play "a" "high")._retry_timer.isActive = false ∧
    (fresh_widget.play "a" "high")._retry_timer.single = true ∧
    (run (fresh_widget.play "a" "high") [.new_event 0 .Stopped,
      .new_event 10 .EncounteredError])._retry_timer.id = some ⟨10, 1000⟩ ∧
    opened (calls (run (fresh_widget.play "a" "high") [.new_event 0 .Stopped,
        .new_event 10 .EncounteredError])
      ((run (fresh_widget.play "a" "high") [.new_event 0 .Stopped,
        .new_event 10 .EncounteredError]).retry_timer_fires 1010)) =
      [TwitchdAPI.playback_url "a" "high"] := by
  have h := terminal_burst_one_replay (fresh_widget.play "a" "high")
    [(0, .Stopped), (10, .EncounteredError)] 1010 (by decide) (by decide) (by decide)
  exact ⟨by decide, by decide, h.1, h.2.2.2.1⟩

/-- C6: whatever the retry interval has become, the continuation of the
catalog fetch sets it to 1000 ms, and changes neither the selection nor the
volume state; the next terminal event, at any time `t`, then arms the timer
with 1000 ms, to fire at `t + 1000`. -/
theorem stream_index_resets_interval (w : VideoWidget) (now : Int) (f : Fetch)
    (index : StreamIndex) (t : Int) :
    (w.stream_index_then now f index)._retry_timer.interval = 1000 ∧
    ((w.stream_index_then now f index).on_new_event t .EndReached)._retry_timer.id
      = some ⟨t, 1000⟩ ∧
    ((w.stream_index_then now f index).on_new_event t .Stopped)._retry_timer.id
      = some ⟨t, 1000⟩ ∧
    ((w.stream_index_then now f index).on_new_event t .EncounteredError)._retry_timer.id
      = some ⟨t, 1000⟩ ∧
    ((w.stream_index_then now f index).on_new_event t .Stopped)._retry_timer.fires_at
      = some (t + 1000) := by
  have hi : (w.stream_index_then now f index)._retry_timer.inter = 1000 := by
    simp only [VideoWidget.stream_index_then, QTimer.setInterval, VideoWidget.emit]
    split <;> rfl
  refine ⟨hi, ?_, ?_, ?_, ?_⟩ <;>
    simp [VideoWidget.on_new_event, QTimer.start, QTimer.stop, QTimer.fires_at, hi]

/-! ## Stale catalog fetches (C5) -/

/-- C5, as stated, fails: the continuation of a stale fetch is not ignored.
From the fresh widget, `play("a", "high")` then `play("b", "low")` leaves the
quality selector cleared and the fetch for "a" in flight; when that fetch is
fulfilled the selector shows "high" with the names of a's index although the
selection is ("b", "low"). And when the retry interval had been doubled to
2000 ms (a `Stopped`, then the firing that replays "a"), the stale fulfilment
sets it back to 1000 ms. -/
theorem stale_fetch_not_ignored :
    Fetch.mk "a" "high" ∈ (run fresh_widget [.play "a" "high", .play "b" "low"]).in_flight ∧
    controls_qualities (run fresh_widget [.play "a" "high", .play "b" "low"]).log = none ∧
    controls_qualities (run fresh_widget [.play "a" "high", .play "b" "low",
      .stream_index_fulfilled 300 ⟨"a", "high"⟩ ⟨[⟨⟨"source"⟩⟩, ⟨⟨"720p"⟩⟩]⟩]).log
      = some ("high", ["source", "720p"]) ∧
    (run fresh_widget [.play "a" "high", .play "b" "low",
      .stream_index_fulfilled 300 ⟨"a", "high"⟩
        ⟨[⟨⟨"source"⟩⟩, ⟨⟨"720p"⟩⟩]⟩])._current_channel = "b" ∧
    (run fresh_widget [.play "a" "high", .new_event 0 .Stopped, .retry_timeout 1000,
      .play "b" "low"])._retry_timer.interval = 2000 ∧
    (run fresh_widget [.play "a" "high", .new_event 0 .Stopped, .retry_timeout 1000,
      .play "b" "low", .stream_index_fulfilled 1300 ⟨"a", "high"⟩
        ⟨[⟨⟨"source"⟩⟩, ⟨⟨"720p"⟩⟩]⟩])._retry_timer.interval = 1000 := by
  decide

/-- What the quality selector holds after two more calls, the second being
`set_qualities`. -/
theorem controls_qualities_set (log : List Effect) (e : Effect) (q : String)
    (qs : List String) :
    controls_qualities (log ++ [e, .controls_set_qualities q qs]) = some (q, qs) := by
  simp [controls_qualities, List.foldl_append]

/-- C5, amended: when the fetch for `c1` made by `play(c1, q1)` is fulfilled
after `play(c2, q2)`, the continuation runs unconditionally (no comparison
with the current selection): the selection stays `(c2, q2)` and the volume
state is untouched, but the continuation calls `clear_qualities` and
`set_qualities(q1, names of c1's index)` on the controls, so the selector
shows `q1` with c1's list, and it sets the retry interval to 1000 ms. -/
theorem stale_fetch_effect (w : VideoWidget) (c1 q1 c2 q2 : String) (now : Int)
    (index : StreamIndex) :
    Fetch.mk c1 q1 ∈ ((w.play c1 q1).play c2 q2).in_flight ∧
    (((w.play c1 q1).play c2 q2).stream_index_then now ⟨c1, q1⟩ index)._current_channel = c2 ∧
    (((w.play c1 q1).play c2 q2).stream_index_then now ⟨c1, q1⟩ index)._current_quality = q2 ∧
    (((w.play c1 q1).play c2 q2).stream_index_then now ⟨c1, q1⟩ index).volume = w.volume ∧
    (((w.play c1 q1).play c2 q2).stream_index_then now ⟨c1, q1⟩ index).muted = w.muted ∧
    calls ((w.play c1 q1).play c2 q2)
        (((w.play c1 q1).play c2 q2).stream_index_then now ⟨c1, q1⟩ index) =
      [.controls_clear_qualities, .controls_set_qualities q1 (quality_names index)] ∧
    controls_qualities
        (((w.play c1 q1).play c2 q2).stream_index_then now ⟨c1, q1⟩ index).log =
      some (q1, quality_names index) ∧
    (((w.play c1 q1).play c2 q2).stream_index_then now ⟨c1, q1⟩ index)._retry_timer.interval
      = 1000 := by
  have h1 := play_effect c1 q1 w
  have h2 := play_effect c2 q2 (w.play c1 q1)
  have hlog : ∀ u : VideoWidget, (u.stream_index_then now ⟨c1, q1⟩ index).log =
      u.log ++ [.controls_clear_qualities, .controls_set_qualities q1 (quality_names index)] := by
    intro u
    simp only [VideoWidget.stream_index_then, VideoWidget.emit]
  have hfields : ∀ u : VideoWidget,
      (u.stream_index_then now ⟨c1, q1⟩ index)._current_channel = u._current_channel ∧
      (u.stream_index_then now ⟨c1, q1⟩ index)._current_quality = u._current_quality ∧
      (u.stream_index_then now ⟨c1, q1⟩ index)._vol = u._vol ∧
      (u.stream_index_then now ⟨c1, q1⟩ index)._muted = u._muted ∧
      (u.stream_index_then now ⟨c1, q1⟩ index)._retry_timer.inter = 1000 := by
    intro u
    refine ⟨rfl, rfl, rfl, rfl, ?_⟩
    simp only [VideoWidget.stream_index_then, QTimer.setInterval, VideoWidget.emit]
    split <;> rfl
  obtain ⟨f1, f2, f3, f4, f5⟩ := hfields ((w.play c1 q1).play c2 q2)
  refine ⟨?_, ?_, ?_, ?_, ?_, ?_, ?_, f5⟩
  · rw [h2.2.2.2.2.1, h1.2.2.2.2.1]; simp
  · rw [f1]; exact h2.2.1
  · rw [f2]; exact h2.2.2.1
  · simp only [VideoWidget.volume]; rw [f3, h2.2.2.2.2.2.1, h1.2.2.2.2.2.1]
  · simp only [VideoWidget.muted]; rw [f4, h2.2.2.2.2.2.2, h1.2.2.2.2.2.2]
  · exact calls_append _ _ _ (hlog _)
  · rw [hlog]; exact controls_qualities_set _ _ _ _

/-! ## The backoff sequence (C2) -/

/-- Doubling once more at the start or at the end is the same. -/
theorem doubled_shift (k : Nat) (i : Int) :
    doubled k (wrapInt32 (i * 2)) = wrapInt32 (doubled k i * 2) := by
  induction k with
  | zero => rfl
  | succ k ih => simp only [doubled, ih]

/-- Up to 21 doublings of 1000 stay inside the `int` range. -/
theorem doubled_base (k : Nat) (hk : k ≤ 21) : doubled k 1000 = 1000 * 2 ^ k := by
  interval_cases k <;> decide

/-- Every handler other than the two that set the interval leaves it alone;
a firing doubles it in `int` arithmetic. -/
theorem step_interval (w : VideoWidget) (i : Input) (hi : i.is_fulfilment = false) :
    (step w i)._retry_timer.inter =
      if i.is_firing then wrapInt32 (w._retry_timer.inter * 2) else w._retry_timer.inter := by
  cases i with
  | play c q => exact congrArg QTimer.inter (play_effect c q w).2.2.2.1
  | volume_changed v =>
    simp [step, VideoWidget.on_volume_changed, VideoWidget.set_volume, VideoWidget.emit,
      Input.is_firing]
  | muted_changed m =>
    simp [step, VideoWidget.on_muted_changed, VideoWidget.set_muted, VideoWidget.set_volume,
      VideoWidget.emit, Input.is_firing]
  | quality_changed q =>
    simp only [step, VideoWidget.on_quality_changed, VideoWidget.emit, Input.is_firing]
    exact congrArg QTimer.inter (play_effect _ q w).2.2.2.1
  | overlay_invalidated g =>
    simp [step, VideoWidget.update_overlay_position, VideoWidget.emit, Input.is_firing]
  | wheel a sh =>
    simp [step, VideoWidget.wheelEvent, VideoWidget.set_volume, VideoWidget.emit,
      Input.is_firing]
  | new_event now e =>
    cases e <;> simp [step, VideoWidget.on_new_event, VideoWidget.emit, QTimer.start,
      QTimer.stop, Input.is_firing]
  | retry_timeout now =>
    have hp : ∀ u : VideoWidget, (u.on_retry_timeout now)._retry_timer.inter =
        wrapInt32 (u._retry_timer.inter * 2) := by
      intro u
      have h := (play_effect u._current_channel u._current_quality u).2.2.2.1
      simp only [VideoWidget.on_retry_timeout, QTimer.setInterval, QTimer.interval, h]
      split <;> rfl
    simp only [step, VideoWidget.retry_timer_fires, Input.is_firing, if_true]
    rw [hp]
    split <;> rfl
  | stream_index_fulfilled now f index => simp [Input.is_fulfilment] at hi

/-- Without a fulfilled catalog fetch, the interval after a run is the
starting interval doubled once per firing, in `int` arithmetic. -/
theorem run_interval (inputs : List Input) (w : VideoWidget)
    (hno : ∀ i ∈ inputs, i.is_fulfilment = false) :
    (run w inputs)._retry_timer.inter = doubled (firings inputs) w._retry_timer.inter := by
  induction inputs generalizing w with
  | nil => rfl
  | cons i rest ih =>
    have hrest := ih (step w i) (fun j hj => hno j (by simp [hj]))
    have hstep := step_interval w i (hno i (by simp))
    simp only [run, List.foldl_cons] at hrest ⊢
    rw [hrest, hstep]
    cases hf : i.is_firing
    · simp [firings, List.countP_cons, hf]
    · simp [firings, List.countP_cons, hf, doubled, doubled_shift]

/-- The constructor leaves the retry timer single-shot, idle, at 1000 ms. -/
theorem constructed_timer (vol0 : Int) (muted0 : Bool) (g : Geometry) :
    (VideoWidget.VideoWidget vol0 muted0 g)._retry_timer = ⟨1000, true, none⟩ := by
  simp [VideoWidget.VideoWidget, QTimer.setInterval, QTimer.setSingleShot, QTimer.fresh,
    QTimer.isActive, VideoWidget.emit, VideoWidget.update_overlay_position]

set_option maxRecDepth 100000 in
/-- C2, as stated for every n, fails at n = 23: the interval is an `int`.
In an outage of 22 reconnect rounds from the fresh widget (no catalog fetch
fulfilled, every firing at its due time) the 22nd arming still uses
1000 * 2^21 ms, but the 22nd firing doubles that out of the `int` range, so
the 23rd arming is not made with 1000 * 2^22 = 4194304000 ms (in two's
complement the stored interval is -100663296, and such a timer never fires). -/
theorem arming_23_not_doubled :
    (∀ i ∈ outage 22 0 1000, i.is_fulfilment = false) ∧
    firings (outage 22 0 1000) + 1 = 23 ∧
    (run fresh_widget (outage 21 0 1000))._retry_timer.interval = 1000 * 2 ^ 21 ∧
    ((run fresh_widget (outage 22 0 1000)).on_new_event 4194303000
      .Stopped)._retry_timer.id = some ⟨4194303000, -100663296⟩ ∧
    ((run fresh_widget (outage 22 0 1000)).on_new_event 4194303000
      .Stopped)._retry_timer.id ≠ some ⟨4194303000, 1000 * 2 ^ (23 - 1)⟩ ∧
    ((run fresh_widget (outage 22 0 1000)).on_new_event 4194303000
      .Stopped)._retry_timer.fires_at = none := by
  decide

/-- C2, amended: from a freshly constructed widget (interval 1000 ms), for
every sequence of inputs in which no catalog fetch is fulfilled and every n
with 1 ≤ n ≤ 22, if the retry timer has fired n - 1 times then the interval
is 1000 * 2^(n-1) ms, and a terminal event at any time `now` (the n-th
arming) registers the timer with that interval, to fire at
`now + 1000 * 2^(n-1)`. -/
theorem nth_arming_interval (vol0 : Int) (muted0 : Bool) (g : Geometry)
    (inputs : List Input) (n : Nat) (now : Int) (e : Event)
    (hno : ∀ i ∈ inputs, i.is_fulfilment = false)
    (hn : firings inputs + 1 = n) (hcap : n ≤ 22) (he : e.terminal = true) :
    (run (VideoWidget.VideoWidget vol0 muted0 g) inputs)._retry_timer.interval
      = 1000 * 2 ^ (n - 1) ∧
    ((run (VideoWidget.VideoWidget vol0 muted0 g) inputs).on_new_event now e)._retry_timer.id
      = some ⟨now, 1000 * 2 ^ (n - 1)⟩ ∧
    ((run (VideoWidget.VideoWidget vol0 muted0 g) inputs).on_new_event now
      e)._retry_timer.fires_at = some (now + 1000 * 2 ^ (n - 1)) := by
  have hi : (run (VideoWidget.VideoWidget vol0 muted0 g) inputs)._retry_timer.inter
      = 1000 * 2 ^ (n - 1) := by
    rw [run_interval inputs _ hno, constructed_timer]
    have hk : firings inputs = n - 1 := by omega
    rw [hk]
    exact doubled_base (n - 1) (by omega)
  have hpos : (0 : Int) ≤ 1000 * 2 ^ (n - 1) := by positivity
  rw [on_new_event_terminal _ now e he]
  refine ⟨hi, ?_, ?_⟩
  · simp [hi]
  · simp [QTimer.fires_at, hi, hpos]

/-- C2, amended, at a concrete input: after two reconnect rounds of an
outage the third arming, by a `Stopped` at t=3000, uses 4000 ms. -/
theorem nth_arming_interval_third :
    (∀ i ∈ outage 2 0 1000, i.is_fulfilment = false) ∧
    firings (outage 2 0 1000) + 1 = 3 ∧ Event.Stopped.terminal = true ∧
    ((run fresh_widget (outage 2 0 1000)).on_new_event 3000 .Stopped)._retry_timer.id
      = some ⟨3000, 4000⟩ := by
  refine ⟨by decide, by decide, by decide, ?_⟩
  exact (nth_arming_interval 100 false sample_geometry (outage 2 0 1000) 3 3000 .Stopped
    (by decide) (by decide) (by decide) (by decide)).2.1

end TwitchPlayer
